import Mathlib

/-!
Verification of the iot-api-change-taxonomy pipeline.

This file gives a shallow embedding, in Lean, of the Python scripts of the
repository (data gathering, lexical pre-filtering, cross-reference
post-filtering, taxonomy classification, and the human screening pass), and
proves or refutes the behavioural claims made about them.

Python strings are modelled as Lean `String`s, with the Python string
operations (`split`, `replace`, `join`, `startswith`, `endswith`, `sorted`)
re-implemented over the underlying character lists so that every definition
evaluates by kernel reduction.  External collaborators (the GitHub tracker,
the classification oracle, the rapidfuzz scorer) enter as explicit
parameters of the functions that call them.
-/

/- ## Python string primitives over character lists -/

/-- Lexicographic comparison of character lists by code point, the order
Python uses when sorting a list of strings. -/
def lexLe : List Char → List Char → Bool
  | [], _ => true
  | _ :: _, [] => false
  | a :: as, b :: bs =>
    if a.toNat < b.toNat then true
    else if b.toNat < a.toNat then false
    else lexLe as bs

/-- Core of Python `str.split(sep)` for a non-empty separator: `cur` holds the
characters of the token being built (reversed), `fuel` bounds the recursion. -/
def py_split_core (sep : List Char) : Nat → List Char → List Char → List (List Char)
  | 0, cur, rest => [cur.reverse ++ rest]
  | _ + 1, cur, [] => [cur.reverse]
  | fuel + 1, cur, c :: rest =>
    if sep.isPrefixOf (c :: rest) then
      cur.reverse :: py_split_core sep fuel [] ((c :: rest).drop sep.length)
    else
      py_split_core sep fuel (c :: cur) rest

/-- Python `s.split(sep)` for a non-empty separator `sep`.  Always returns a
non-empty list; a string with no occurrence of `sep` yields `[s]`. -/
def py_split (s sep : String) : List String :=
  (py_split_core sep.data (s.data.length + 1) [] s.data).map String.mk

/-- Core of Python `str.replace(old, new)` for a non-empty `old`, replacing
every occurrence left to right without overlap; `fuel` bounds the recursion. -/
def py_replace_core (old new : List Char) : Nat → List Char → List Char
  | 0, s => s
  | _ + 1, [] => []
  | fuel + 1, c :: rest =>
    if old.isPrefixOf (c :: rest) then
      new ++ py_replace_core old new fuel ((c :: rest).drop old.length)
    else
      c :: py_replace_core old new fuel rest

/-- Python `s.replace(old, new)` for a non-empty pattern `old`. -/
def py_replace (s old new : String) : String :=
  ⟨py_replace_core old.data new.data s.data.length s.data⟩

/-- Python `sep.join(xs)`. -/
def py_join (sep : String) : List String → String
  | [] => ""
  | [x] => x
  | x :: y :: rest => x ++ sep ++ py_join sep (y :: rest)

/-- Python `s.startswith(p)`. -/
def py_startswith (s p : String) : Bool :=
  p.data.isPrefixOf s.data

/-- Python `s.endswith(p)`. -/
def py_endswith (s p : String) : Bool :=
  p.data.isSuffixOf s.data

/-- Python `int(s)` restricted to the unsigned-decimal case that batch file
names produce; any other input raises `ValueError`, modelled as `none`. -/
def py_int (s : String) : Option Int :=
  if s.data ≠ [] ∧ s.data.all Char.isDigit then
    some (Int.ofNat (s.data.foldl (fun acc c => acc * 10 + (c.toNat - '0'.toNat)) 0))
  else none

/-- Python `sorted` on strings: a stable ascending sort by code-point order. -/
def py_sorted_str (l : List String) : List String :=
  List.insertionSort (fun a b => lexLe a.data b.data = true) l

/- ## Cross-Reference Joiner (`scripts/post-filtering.py`) -/

namespace PostFilter

/-- Base URL every integration tag is resolved against. -/
def INTEGRATION_BASE_URL : String := "https://www.home-assistant.io/integrations/"

/-- Information about a Home Assistant integration (`IntegrationInfo`). -/
structure IntegrationInfo where
  api : String
  introduction_version : String
  iot_class : String
  content : String
  categories : List String
  deployment_type : Option String := some ""
  communication_mechanism : Option String := some ""
deriving DecidableEq

/-- A comment on a change report. -/
structure Comment where
  id : Int
  body : String
deriving DecidableEq

/-- A change report for Home Assistant integrations (`ChangeReport`). -/
structure ChangeReport where
  number : Int
  title : String
  body : Option String
  comments : List Comment
  involved_apis : List String := []
  tags : List String := []
deriving DecidableEq

/-- Filters change reports based on the APIs involved. -/
def filter_reports_by_apis (reports : List ChangeReport) (apis : List String) :
    List ChangeReport :=
  reports.filter (fun report => report.involved_apis.any (fun api => apis.contains api))

/-- Filters integrations based on the APIs. -/
def filter_integrations_by_apis (integrations : List IntegrationInfo)
    (apis : List String) : List IntegrationInfo :=
  integrations.filter (fun integration => apis.contains integration.api)

/-- One tag's contribution inside the list comprehension of
`extract_integration_uris_from_tags`: Python `tag.split(': ')[1]` raises
`IndexError` (modelled as `none`) when the separator `": "` does not occur. -/
def tag_uri (tag : String) : Option String :=
  ((py_split tag ": ").get? 1).map (fun name => INTEGRATION_BASE_URL ++ name)

/-- Extracts integration URIs from tags.  The Python list comprehension
raises as soon as one selected tag lacks the `": "` separator, so the whole
call is fallible. -/
def extract_integration_uris_from_tags : List String → Option (List String)
  | [] => some []
  | tag :: rest =>
    if py_startswith tag "integration:" then
      match tag_uri tag, extract_integration_uris_from_tags rest with
      | some uri, some uris => some (uri :: uris)
      | _, _ => none
    else
      extract_integration_uris_from_tags rest

/-- Sets `involved_apis` on every report from its tags, as the loop in
`main` does; fails if any report's tag extraction raises. -/
def assign_involved_apis : List ChangeReport → Option (List ChangeReport)
  | [] => some []
  | report :: rest =>
    match extract_integration_uris_from_tags report.tags, assign_involved_apis rest with
    | some uris, some rest' => some ({report with involved_apis := uris} :: rest')
    | _, _ => none

/-- The processing and filtering part of `main`: derive `involved_apis`,
then filter reports and integrations, returning both filtered lists. -/
def main_process (change_reports : List ChangeReport)
    (integrations : List IntegrationInfo) :
    Option (List ChangeReport × List IntegrationInfo) :=
  let integration_apis := integrations.map (fun integration => integration.api)
  match assign_involved_apis change_reports with
  | none => none
  | some reports' =>
    some (filter_reports_by_apis reports' integration_apis,
          filter_integrations_by_apis integrations integration_apis)

/-- A concrete integration referenced by no change report. -/
def orphan_integration : IntegrationInfo :=
  { api := "https://www.home-assistant.io/integrations/netdata"
    introduction_version := "0.29"
    iot_class := "Local Polling"
    content := "Netdata monitoring."
    categories := ["System monitor"] }

end PostFilter

/- ## Claims C2 and C7 -/

/-- C2: the Cross-Reference Joiner does not shrink the integration side to the
mutual reference closure.  `main` filters integrations against the list of all
integration APIs (derived from the integrations themselves), a vacuous filter,
so an integration referenced by no retained issue is still retained: with no
change reports at all, the orphan integration survives. -/
theorem C2_unreferenced_integration_retained :
  PostFilter.main_process [] [PostFilter.orphan_integration] =
    some ([], [PostFilter.orphan_integration]) := by decide

/-- C7 counterexample: extraction is claimed to succeed on every tag list, but
a tag following the exact convention `integration:<name>` (no space) starts
with the scanned-for text while lacking the `": "` separator used for the
split, so the comprehension raises `IndexError` (modelled as `none`). -/
theorem C7_integration_tag_counterexample :
  PostFilter.extract_integration_uris_from_tags ["integration:netdata"] = none := by
  decide

/-- C7 amended: for every tag list in which each tag that starts with
`integration:` also contains the separator `": "`, the extraction returns
exactly one canonical URI per such tag (base URL plus the second
`": "`-separated segment) and nothing for the other tags; and it fails
whenever some tag starts with `integration:` but lacks the separator. -/
theorem C7_tag_extraction_amended (tags : List String) :
  ((∀ t ∈ tags, py_startswith t "integration:" = true → 2 ≤ (py_split t ": ").length) →
    PostFilter.extract_integration_uris_from_tags tags =
      some ((tags.filter (fun t => py_startswith t "integration:")).map
        (fun t => PostFilter.INTEGRATION_BASE_URL ++ (py_split t ": ").getD 1 ""))) ∧
  ((∃ t ∈ tags, py_startswith t "integration:" = true ∧ (py_split t ": ").length < 2) →
    PostFilter.extract_integration_uris_from_tags tags = none) := by
  induction tags with
  | nil =>
    constructor
    · intro _; rfl
    · rintro ⟨t, ht, -⟩; exact absurd ht (List.not_mem_nil t)
  | cons tag rest ih =>
    constructor
    · intro h
      have hrest := ih.1 (fun t ht => h t (List.mem_cons_of_mem _ ht))
      by_cases hs : py_startswith tag "integration:" = true
      · have h1 : 1 < (py_split tag ": ").length := h tag (List.mem_cons_self _ _) hs
        have hget : (py_split tag ": ").get? 1 = some ((py_split tag ": ").getD 1 "") := by
          rw [List.getD_eq_getD_get?]
          cases hx : (py_split tag ": ").get? 1 with
          | none => exact absurd (List.get?_eq_none.mp hx) (by omega)
          | some v => rfl
        unfold PostFilter.extract_integration_uris_from_tags PostFilter.tag_uri
        rw [if_pos hs, hget, hrest]
        simp [List.filter_cons, hs]
      · unfold PostFilter.extract_integration_uris_from_tags
        rw [if_neg hs, hrest]
        simp [List.filter_cons, hs]
    · intro hbad
      obtain ⟨t, ht, hts, htl⟩ := hbad
      rcases List.mem_cons.mp ht with rfl | htrest
      · have hget : (py_split t ": ").get? 1 = none := List.get?_eq_none.mpr (by omega)
        unfold PostFilter.extract_integration_uris_from_tags PostFilter.tag_uri
        rw [if_pos hts, hget]
        cases PostFilter.extract_integration_uris_from_tags rest <;> rfl
      · have hrest := ih.2 ⟨t, htrest, hts, htl⟩
        unfold PostFilter.extract_integration_uris_from_tags
        by_cases hs : py_startswith tag "integration:" = true
        · rw [if_pos hs, hrest]
          cases PostFilter.tag_uri tag <;> rfl
        · rw [if_neg hs]
          exact hrest

/-- C7 witness: the amended extraction evaluated on a well-formed tag list. -/
theorem C7_tag_extraction_witness :
  PostFilter.extract_integration_uris_from_tags ["integration: netdata", "bugfix"] =
    some (["integration: netdata", "bugfix"].filter
        (fun t => py_startswith t "integration:") |>.map
      (fun t => PostFilter.INTEGRATION_BASE_URL ++ (py_split t ": ").getD 1 "")) :=
  (C7_tag_extraction_amended ["integration: netdata", "bugfix"]).1 (by decide)

/- ## Corpus Store (`scripts/data-gathering.py`) -/

namespace DataGathering

/-- Maximum number of new issues per stored batch (`BATCH_SIZE`). -/
def BATCH_SIZE : Nat := 100

/-- A comment fetched from the tracker. -/
structure Comment where
  id : Int
  body : String
  created_at : String
  updated_at : String
  user : String
deriving DecidableEq

/-- An issue fetched from the tracker (timestamps kept as their serialized
ISO strings). -/
structure Issue where
  number : Int
  title : String
  body : Option String
  state : String
  created_at : String
  updated_at : String
  closed_at : Option String
  comments : List Comment := []
  tags : List String := []
deriving DecidableEq

/-- Contents of one batch file: a repository name and its issues. -/
structure Repository where
  name : String
  issues : List Issue := []
deriving DecidableEq

/-- The batch directory, modelled as the list of its files: each entry is a
filename together with the parsed contents of that file.  Filenames within a
directory are unique; theorems that need this assume it explicitly. -/
abbrev FileStore := List (String × Repository)

/-- The files of the directory whose names end in `.json`. -/
def json_files (store : FileStore) : List (String × Repository) :=
  store.filter (fun file => py_endswith file.1 ".json")

/-- Retrieves the issue numbers that have already been stored, scanning every
`.json` batch file.  Python builds a `set`; only membership in it is ever
used, so it is modelled as the concatenated list of numbers. -/
def get_stored_issue_numbers (store : FileStore) : List Int :=
  (json_files store).flatMap (fun file => file.2.issues.map (fun issue => issue.number))

/-- The numeric suffix of one stored filename:
`int(filename.split("_")[1].split(".")[0])`, with `IndexError`/`ValueError`
modelled as `none`. -/
def file_number_of (filename : String) : Option Int :=
  match (py_split filename "_").get? 1 with
  | none => none
  | some middle => py_int ((py_split middle ".").getD 0 "")

/-- Suffix numbers of all stored `.json` files; `none` if any name fails to
parse, mirroring the exception `int` would raise. -/
def stored_file_numbers : List (String × Repository) → Option (List Int)
  | [] => some []
  | file :: rest =>
    match file_number_of file.1, stored_file_numbers rest with
    | some n, some ns => some (n :: ns)
    | _, _ => none

/-- Retrieves a new file number for the next batch:
`max(stored_number) + 1`.  `max` of an empty sequence raises `ValueError`,
modelled as `none`. -/
def get_file_number (store : FileStore) : Option Int :=
  match stored_file_numbers (json_files store) with
  | none => none
  | some [] => none
  | some (n :: ns) => some (ns.foldl max n + 1)

/-- The issue-collecting loop of `fetch_and_store_issues`: walk the source in
its native order, skip issues whose number is already stored, append the rest
to the accumulator, and stop as soon as the accumulator reaches `BATCH_SIZE`. -/
def collect_loop (stored : List Int) (acc : List Issue) : List Issue → List Issue
  | [] => acc
  | issue :: rest =>
    if stored.contains issue.number then
      collect_loop stored acc rest
    else
      let acc' := acc ++ [issue]
      if BATCH_SIZE ≤ acc'.length then acc' else collect_loop stored acc' rest

/-- Fetches issues not yet stored and appends them as one new batch file
(`while True` runs a single writing iteration).  The batch filename suffix is
one greater than the maximum existing suffix; when the directory holds no
`.json` file, `max([])` raises `ValueError` and nothing is written. -/
def fetch_and_store_issues (store : FileStore) (repo_name : String)
    (source : List Issue) : Except String FileStore :=
  let stored_issues := get_stored_issue_numbers store
  let repository_issues := collect_loop stored_issues [] source
  if repository_issues = [] then
    Except.ok store
  else
    match get_file_number store with
    | none => Except.error "ValueError"
    | some n =>
      Except.ok (store ++
        [("batch_" ++ toString n ++ ".json", ⟨repo_name, repository_issues⟩)])

/-- Loads all stored issues: iterate the directory listing in Python
`sorted` order (lexicographic on filenames), read every `.json` file, and
extend the issue list with that file's issues. -/
def load_all_issues (store : FileStore) (repo_name : String) : Repository :=
  let sorted_names := py_sorted_str (store.map (fun file => file.1))
  ⟨repo_name,
    (sorted_names.filter (fun name => py_endswith name ".json")).foldl
      (fun acc name =>
        acc ++ (((store.find? (fun file => file.1 == name)).map
          (fun file => file.2.issues)).getD []))
      []⟩

/-- The issues a filename contributes when loaded: the contents of the first
file of that name. -/
def issues_of_name (store : FileStore) (name : String) : List Issue :=
  ((store.find? (fun file => file.1 == name)).map (fun file => file.2.issues)).getD []

/-- Modelled from the spec: `loadAll` as the claim reads it, concatenating
batches in ascending batch-number order (suffix parsed from the filename)
rather than in lexicographic filename order. -/
def load_all_by_batch_number_spec (store : FileStore) (repo_name : String) :
    Repository :=
  let sorted_names := List.insertionSort
    (fun a b : String => ((file_number_of a).getD 0) ≤ ((file_number_of b).getD 0))
    (store.map (fun file => file.1))
  ⟨repo_name,
    (sorted_names.filter (fun name => py_endswith name ".json")).foldl
      (fun acc name => acc ++ issues_of_name store name) []⟩

/-- A minimal issue with a given number, used for concrete stores. -/
def mk_issue (n : Int) : Issue :=
  { number := n, title := "t", body := none, state := "open"
    created_at := "2024-01-01", updated_at := "2024-01-01", closed_at := none }

/-- A store with batches 1, 2 and 10: lexicographically, `batch_10.json`
sorts before `batch_2.json`. -/
def wide_store : FileStore :=
  [("batch_1.json", ⟨"home-assistant/core", [mk_issue 1]⟩),
   ("batch_2.json", ⟨"home-assistant/core", [mk_issue 2]⟩),
   ("batch_10.json", ⟨"home-assistant/core", [mk_issue 10]⟩)]

end DataGathering

/- ## Helper lemmas about the Python string model -/

theorem lexLe_total (a b : List Char) : lexLe a b = true ∨ lexLe b a = true := by
  induction a generalizing b with
  | nil => left; rfl
  | cons x xs ih =>
    cases b with
    | nil => right; rfl
    | cons y ys =>
      by_cases h1 : x.toNat < y.toNat
      · left; simp [lexLe, h1]
      · by_cases h2 : y.toNat < x.toNat
        · right; simp [lexLe, h2]
        · rcases ih ys with h | h
          · left; simp [lexLe, h1, h2, h]
          · right; simp [lexLe, h1, h2, h]

theorem lexLe_trans (a b c : List Char) (hab : lexLe a b = true)
    (hbc : lexLe b c = true) : lexLe a c = true := by
  induction a generalizing b c with
  | nil => rfl
  | cons x xs ih =>
    cases b with
    | nil => simp [lexLe] at hab
    | cons y ys =>
      cases c with
      | nil => simp [lexLe] at hbc
      | cons z zs =>
        simp only [lexLe] at hab hbc ⊢
        by_cases hxy : x.toNat < y.toNat
        · by_cases hyz : y.toNat < z.toNat
          · simp [show x.toNat < z.toNat by omega]
          · by_cases hzy : z.toNat < y.toNat
            · simp [hyz, hzy] at hbc
            · simp [show x.toNat < z.toNat by omega]
        · by_cases hyx : y.toNat < x.toNat
          · simp [hxy, hyx] at hab
          · simp only [hxy, if_false, hyx, if_false] at hab
            by_cases hyz : y.toNat < z.toNat
            · simp [show x.toNat < z.toNat by omega]
            · by_cases hzy : z.toNat < y.toNat
              · simp [hyz, hzy] at hbc
              · simp only [hyz, if_false, hzy, if_false] at hbc
                have hxz : ¬ x.toNat < z.toNat := by omega
                have hzx : ¬ z.toNat < x.toNat := by omega
                simp only [hxz, if_false, hzx, if_false]
                exact ih ys zs hab hbc

theorem foldl_append_eq_flatMap {α β : Type} (f : α → List β) :
    ∀ (l : List α) (init : List β),
      l.foldl (fun acc x => acc ++ f x) init = init ++ l.flatMap f := by
  intro l
  induction l with
  | nil => intro init; simp
  | cons x rest ih => intro init; simp [List.foldl_cons, ih, List.flatMap_cons]

theorem py_endswith_append_json (s : String) :
    py_endswith (s ++ ".json") ".json" = true := by
  unfold py_endswith
  rw [String.data_append]
  exact List.isSuffixOf_iff_suffix.mpr (List.suffix_append _ _)

theorem find?_first_component {store : DataGathering.FileStore}
    (hn : (store.map (fun file => file.1)).Nodup) {file : String × DataGathering.Repository}
    (hm : file ∈ store) :
    store.find? (fun x => x.1 == file.1) = some file := by
  induction store with
  | nil => exact absurd hm (List.not_mem_nil _)
  | cons head rest ih =>
    rw [List.map_cons, List.nodup_cons] at hn
    rcases List.mem_cons.mp hm with rfl | hrest
    · simp [List.find?_cons]
    · have hne : (head.1 == file.1) = false := by
        apply beq_eq_false_iff_ne.mpr
        intro hcon
        exact hn.1 (hcon ▸ List.mem_map_of_mem (fun f => f.1) hrest)
      simp only [List.find?_cons, hne]
      exact ih hn.2 hrest

theorem collect_loop_split (stored : List Int) :
    ∀ (source acc : List DataGathering.Issue),
      ∃ sub, DataGathering.collect_loop stored acc source = acc ++ sub ∧
        sub.Sublist source ∧ ∀ i ∈ sub, i.number ∉ stored := by
  intro source
  induction source with
  | nil => intro acc; exact ⟨[], by simp [DataGathering.collect_loop], List.nil_sublist _, by simp⟩
  | cons issue rest ih =>
    intro acc
    by_cases hc : issue.number ∈ stored
    · obtain ⟨sub, heq, hsl, hns⟩ := ih acc
      refine ⟨sub, ?_, hsl.cons issue, hns⟩
      simp only [DataGathering.collect_loop]
      simpa [hc] using heq
    · by_cases hfull : DataGathering.BATCH_SIZE ≤ acc.length + 1
      · refine ⟨[issue], ?_, (List.nil_sublist rest).cons₂ issue, ?_⟩
        · simp only [DataGathering.collect_loop]
          simp [hc, hfull]
        · intro i hi
          rcases List.mem_singleton.mp hi with rfl
          exact hc
      · obtain ⟨sub, heq, hsl, hns⟩ := ih (acc ++ [issue])
        refine ⟨issue :: sub, ?_, hsl.cons₂ issue, ?_⟩
        · simp only [DataGathering.collect_loop]
          simp only [List.append_assoc, List.singleton_append] at heq
          simp [hc, hfull, heq]
        · intro i hi
          rcases List.mem_cons.mp hi with rfl | hi
          · exact hc
          · exact hns i hi

/- ## Claims C5, C6 and C10 -/

/-- C5 counterexample: with batches 1, 2 and 10 present, `load_all_issues`
concatenates in lexicographic filename order (`batch_1`, `batch_10`,
`batch_2`), which is not ascending batch-number order, so the result differs
from the spec-side ascending-batch-number concatenation. -/
theorem C5_filename_order_counterexample :
  ((DataGathering.load_all_issues DataGathering.wide_store "home-assistant/core").issues.map
      (fun issue => issue.number) = [1, 10, 2]) ∧
  DataGathering.load_all_issues DataGathering.wide_store "home-assistant/core" ≠
    DataGathering.load_all_by_batch_number_spec DataGathering.wide_store
      "home-assistant/core" := by decide

/-- C5 amended: `load_all_issues` concatenates the stored batches in
lexicographic (Python `sorted`) filename order — which coincides with
ascending batch-number order only while the numeric suffixes share a digit
count — preserving the order of issues inside each batch: the result is the
flat concatenation over the lexicographically sorted `.json` names, that name
list is sorted, and every stored `.json` batch appears contiguously. -/
theorem C5_lexicographic_load_order (store : DataGathering.FileStore)
    (repo_name : String) (h : (store.map (fun file => file.1)).Nodup) :
  ((DataGathering.load_all_issues store repo_name).issues =
    ((py_sorted_str (store.map (fun file => file.1))).filter
        (fun name => py_endswith name ".json")).flatMap
      (DataGathering.issues_of_name store)) ∧
  List.Sorted (fun a b : String => lexLe a.data b.data = true)
    ((py_sorted_str (store.map (fun file => file.1))).filter
      (fun name => py_endswith name ".json")) ∧
  (∀ file ∈ store, py_endswith file.1 ".json" = true →
    file.2.issues <:+: (DataGathering.load_all_issues store repo_name).issues) := by
  have hflat : (DataGathering.load_all_issues store repo_name).issues =
      ((py_sorted_str (store.map (fun file => file.1))).filter
          (fun name => py_endswith name ".json")).flatMap
        (DataGathering.issues_of_name store) := by
    unfold DataGathering.load_all_issues
    simpa [DataGathering.issues_of_name] using
      foldl_append_eq_flatMap (DataGathering.issues_of_name store)
        ((py_sorted_str (store.map (fun file => file.1))).filter
          (fun name => py_endswith name ".json")) []
  refine ⟨hflat, ?_, ?_⟩
  · haveI : IsTotal String (fun a b : String => lexLe a.data b.data = true) :=
      ⟨fun a b => lexLe_total a.data b.data⟩
    haveI : IsTrans String (fun a b : String => lexLe a.data b.data = true) :=
      ⟨fun a b c => lexLe_trans a.data b.data c.data⟩
    exact (List.sorted_insertionSort _ _).filter _
  · intro file hmem hjson
    have hname : file.1 ∈ (py_sorted_str (store.map (fun f => f.1))).filter
        (fun name => py_endswith name ".json") := by
      apply List.mem_filter.mpr
      refine ⟨?_, hjson⟩
      exact (List.perm_insertionSort _ _).mem_iff.mpr
        (List.mem_map_of_mem (fun f => f.1) hmem)
    have hlook : DataGathering.issues_of_name store file.1 = file.2.issues := by
      unfold DataGathering.issues_of_name
      rw [find?_first_component h hmem]
      rfl
    obtain ⟨s, t, hst⟩ := List.append_of_mem hname
    rw [hflat, hst, List.flatMap_append, List.flatMap_cons, hlook]
    exact ⟨s.flatMap (DataGathering.issues_of_name store),
      t.flatMap (DataGathering.issues_of_name store), by simp⟩

/-- C5 witness: the lexicographic characterization evaluated on the concrete
three-batch store. -/
theorem C5_lexicographic_load_order_witness :
  (DataGathering.load_all_issues DataGathering.wide_store "home-assistant/core").issues =
    ((py_sorted_str (DataGathering.wide_store.map (fun file => file.1))).filter
        (fun name => py_endswith name ".json")).flatMap
      (DataGathering.issues_of_name DataGathering.wide_store) :=
  (C5_lexicographic_load_order DataGathering.wide_store "home-assistant/core"
    (by decide)).1

/-- C6: under distinct source issue numbers, a successful `fetch_and_store`
run preserves the no-duplicate invariant of the stored issue numbers — the
dedup set is recomputed from the persisted batches and already-stored numbers
are skipped — and a run whose source offers nothing new leaves the store
unchanged, writing zero new batch files. -/
theorem C6_dedup_invariant (store : DataGathering.FileStore) (repo_name : String)
    (source : List DataGathering.Issue)
    (hsource : (source.map (fun issue => issue.number)).Nodup)
    (hstore : (DataGathering.get_stored_issue_numbers store).Nodup) :
  (∀ store', DataGathering.fetch_and_store_issues store repo_name source =
      Except.ok store' →
    (DataGathering.get_stored_issue_numbers store').Nodup) ∧
  ((∀ issue ∈ source, issue.number ∈ DataGathering.get_stored_issue_numbers store) →
    DataGathering.fetch_and_store_issues store repo_name source = Except.ok store) := by
  obtain ⟨sub, heq, hsl, hns⟩ :=
    collect_loop_split (DataGathering.get_stored_issue_numbers store) source []
  constructor
  · intro store' hok
    unfold DataGathering.fetch_and_store_issues at hok
    simp only [heq, List.nil_append] at hok
    by_cases hempty : sub = []
    · rw [if_pos hempty] at hok
      cases hok
      exact hstore
    · rw [if_neg hempty] at hok
      cases hfn : DataGathering.get_file_number store with
      | none => rw [hfn] at hok; cases hok
      | some n =>
        rw [hfn] at hok
        cases hok
        unfold DataGathering.get_stored_issue_numbers DataGathering.json_files
        rw [List.filter_append, List.flatMap_append]
        have hj : py_endswith ("batch_" ++ toString n ++ ".json") ".json" = true :=
          py_endswith_append_json _
        have hsubnodup : (sub.map (fun issue => issue.number)).Nodup :=
          hsource.sublist (hsl.map _)
        refine List.Nodup.append hstore ?_ ?_
        · simpa [hj] using hsubnodup
        · intro a ha hb
          simp only [List.filter_cons, hj, List.filter_nil, List.flatMap_cons,
            List.flatMap_nil, List.append_nil, if_true] at hb
          simp only [List.mem_map] at hb
          obtain ⟨issue, hi, rfl⟩ := hb
          exact hns issue hi ha
  · intro hall
    have hsub : sub = [] := by
      by_contra hne
      obtain ⟨i, hi⟩ := List.exists_mem_of_ne_nil sub hne
      have hmem : i ∈ source := (hsl.mem hi : _)
      exact hns i hi (hall i hmem)
    unfold DataGathering.fetch_and_store_issues
    simp [heq, hsub]

/-- C6 witness: re-running against a source whose single issue is already
stored leaves the one-batch store unchanged. -/
theorem C6_dedup_invariant_witness :
  DataGathering.fetch_and_store_issues
      [("batch_1.json", ⟨"home-assistant/core", [DataGathering.mk_issue 7]⟩)]
      "home-assistant/core" [DataGathering.mk_issue 7] =
    Except.ok [("batch_1.json", ⟨"home-assistant/core", [DataGathering.mk_issue 7]⟩)] :=
  (C6_dedup_invariant
      [("batch_1.json", ⟨"home-assistant/core", [DataGathering.mk_issue 7]⟩)]
      "home-assistant/core" [DataGathering.mk_issue 7]
      (by decide) (by decide)).2 (by decide)

/-- C10: on a batch directory containing no batch file, `get_file_number`
evaluates `max` over an empty sequence, which raises `ValueError`; hence the
first-ever fetch run against an empty directory fails when it tries to store
its first batch instead of creating `batch_1.json`. -/
theorem C10_first_run_value_error (repo_name : String)
    (source : List DataGathering.Issue) (h : source ≠ []) :
  DataGathering.get_file_number [] = none ∧
  DataGathering.fetch_and_store_issues [] repo_name source =
    Except.error "ValueError" := by
  refine ⟨rfl, ?_⟩
  obtain ⟨issue, rest, rfl⟩ := List.exists_cons_of_ne_nil h
  obtain ⟨sub, heq, -, -⟩ := collect_loop_split [] rest [issue]
  have hcollect : DataGathering.collect_loop [] [] (issue :: rest) =
      DataGathering.collect_loop [] [issue] rest := by
    simp only [DataGathering.collect_loop]
    simp [DataGathering.BATCH_SIZE]
  have hne : DataGathering.collect_loop
      (DataGathering.get_stored_issue_numbers []) [] (issue :: rest) ≠ [] := by
    show DataGathering.collect_loop [] [] (issue :: rest) ≠ []
    rw [hcollect, heq]
    simp
  unfold DataGathering.fetch_and_store_issues
  rw [if_neg hne]
  rfl

/-- C10 witness: the failure evaluated on a singleton source. -/
theorem C10_first_run_value_error_witness :
  DataGathering.fetch_and_store_issues [] "home-assistant/core"
      [DataGathering.mk_issue 5] = Except.error "ValueError" :=
  (C10_first_run_value_error "home-assistant/core" [DataGathering.mk_issue 5]
    (by decide)).2

/- ## Taxonomy Classifier (`data_processing/api-taxonomy-classification.py`) -/

namespace Classify

/-- The closed taxonomy, as the list of label strings of the `IoTAPIChanges`
enumeration (including the reserved `Unknown`). -/
def IoTAPIChangesList : List String :=
  ["Modify Data Payload Format", "Modify Data Type", "Modify Structure of Payload",
   "Modify Encoding of Payload", "Modify Payload Compression",
   "Modify Consumed Data Payload", "Modify Produced Data Payload",
   "Modify Protocol", "Modify Protocol Version", "Add Protocol Feature",
   "Add Endpoint", "Remove Endpoint", "Rename Endpoint", "Relocate Endpoint",
   "Split Endpoint", "Combine Endpoint", "Modify Access Method to Endpoint",
   "Modify Authentication Method", "Modify Authorization Method",
   "Modify Encryption", "Modify Access Control Policy", "Add Parameter",
   "Remove Parameter", "Rename Parameter", "Modify Parameter Upper Bound",
   "Modify Parameter Lower Bound", "Modify Default Value of Parameter",
   "Reorder Parameter", "Unknown"]

/-- One classification record.  The pydantic model declares `class_type` as a
plain `str` (the taxonomy appears only as a `json_schema_extra` hint sent to
the oracle), `confidence` as a float (modelled as `Rat`) and `explanation` as
a `str`. -/
structure APITaxonomyClassification where
  class_type : String
  confidence : Rat
  explanation : String
deriving DecidableEq

/-- The structured-output wrapper `APITaxonomyClassificationList`. -/
structure APITaxonomyClassificationList where
  api_taxonomy_classes : List APITaxonomyClassification
deriving DecidableEq

/-- JSON values, the shape `json.loads` produces from the oracle content. -/
inductive JValue where
  | jnull
  | jbool (b : Bool)
  | jnum (q : Rat)
  | jstr (s : String)
  | jarr (xs : List JValue)
  | jobj (fields : List (String × JValue))

/-- Key lookup in a JSON object (`json.loads` keeps one value per key). -/
def jlookup (fields : List (String × JValue)) (key : String) : Option JValue :=
  (fields.find? (fun kv => kv.1 == key)).map (fun kv => kv.2)

/-- Pydantic validation of one `APITaxonomyClassification` from a JSON value.
`confidence` and `explanation` are populated through their declared aliases
(the model does not enable population by field name).  There is no constraint
on the `class_type` string beyond it being a string. -/
def parse_classification (v : JValue) : Option APITaxonomyClassification :=
  match v with
  | .jobj fields =>
    match jlookup fields "class_type",
        jlookup fields "api_taxonomy_class_confidence",
        jlookup fields "api_taxonomy_class_explanation" with
    | some (.jstr ct), some (.jnum conf), some (.jstr expl) => some ⟨ct, conf, expl⟩
    | _, _, _ => none
  | _ => none

/-- Pydantic validation of every element of the `api_taxonomy_classes` array. -/
def parse_class_items : List JValue → Option (List APITaxonomyClassification)
  | [] => some []
  | v :: rest =>
    match parse_classification v, parse_class_items rest with
    | some c, some cs => some (c :: cs)
    | _, _ => none

/-- Validation of `APITaxonomyClassificationList(**result)`: the loaded JSON
must be an object carrying an `api_taxonomy_classes` array whose elements all
validate; any failure raises and is caught by the surrounding `except`. -/
def parse_classification_list (v : JValue) : Option APITaxonomyClassificationList :=
  match v with
  | .jobj fields =>
    match jlookup fields "api_taxonomy_classes" with
    | some (.jarr xs) => (parse_class_items xs).map (fun cs => ⟨cs⟩)
    | _ => none
  | _ => none

/-- Outcome of one oracle call: either the call (or `json.loads`) raises, or
it yields a parsed JSON value. -/
inductive OracleResp where
  | raise
  | ok (v : JValue)

/-- The user-prompt template `CLASSIFICATION_PROMPT`. -/
def CLASSIFICATION_PROMPT : String :=
  "\n## Content to analyze:\n### Title: {title}\n### Body:\n{content}\n### Comments:\n{comments}\n\n"

/-- The prompt after the two unconditional replacements performed at the top
of `analyze_content` (`{content}` by the body, then `{title}` by the title). -/
def build_prompt_base (title body : String) : String :=
  py_replace (py_replace CLASSIFICATION_PROMPT "{content}" body) "{title}" title

/-- The prompt of the attempt using the first `i` comments:
`prompt.replace("{comments}", "\n".join(comments[:i]))`. -/
def attempt_prompt (prompt : String) (comments : List String) (i : Nat) : String :=
  py_replace prompt "{comments}" (py_join "\n" (comments.take i))

/-- One iteration of the try/except body: call the oracle and parse its
response; every exception is caught, yielding `none`. -/
def oracle_attempt (oracle : String → OracleResp) (prompt : String) :
    Option APITaxonomyClassificationList :=
  match oracle prompt with
  | .raise => none
  | .ok v => parse_classification_list v

/-- The `analyze_content` function: build the prompt, then try the oracle for
`i in [len(comments), 0]`, returning the first parsed result; if both
attempts fail the function falls off the loop and returns `None`.  The second
component records the prompts actually sent to the oracle, in order. -/
def analyze_content (oracle : String → OracleResp) (title body : String)
    (comments : List String) : Option APITaxonomyClassificationList × List String :=
  let prompt := build_prompt_base title body
  let p1 := attempt_prompt prompt comments comments.length
  match oracle_attempt oracle p1 with
  | some result => (some result, [p1])
  | none =>
    let p2 := attempt_prompt prompt comments 0
    match oracle_attempt oracle p2 with
    | some result => (some result, [p1, p2])
    | none => (none, [p1, p2])

/-- What the classification loop stores into `issue.api_taxonomy_class`.
The field is declared `Optional[APITaxonomyClassification]`, but pydantic
does not validate plain attribute assignment, so the loop leaves either a
single record (the fallback branches) or a whole list (the success branch). -/
inductive Verdict where
  | single (c : APITaxonomyClassification)
  | list (l : APITaxonomyClassificationList)
deriving DecidableEq

/-- A comment of the classification input file. -/
structure Comment where
  id : Int
  body : String
deriving DecidableEq

/-- An issue of the classification input file.  `title` is a required `str`
in the pydantic model (an absent or null title fails validation at load
time), while `body` is `Optional[str]`. -/
structure Issue where
  number : Int
  title : String
  created : String
  updated : String
  closed : Option String
  body : Option String
  comments : List Comment
  api_taxonomy_class : Option Verdict := none
deriving DecidableEq

/-- The keyword arguments of the fallback constructor call
`APITaxonomyClassification(class_type="Unknown", confidence=0.0,
explanation="No content to analyze")`, as the dict pydantic validates.  The
keys are the field names; `confidence` and `explanation` are however
declared with aliases and the model does not enable population by name, so
this dict fails validation (the aliased keys are missing). -/
def default_unknown_kwargs : JValue :=
  .jobj [("class_type", .jstr "Unknown"),
         ("confidence", .jnum 0),
         ("explanation", .jstr "No content to analyze")]

/-- The tail of the loop body, after the (dead) empty-content test:
normalize the body, call `analyze_content`, then assign.  A parsed oracle
answer is assigned directly (plain attribute assignment, not validated by
pydantic).  The `None` fallback instead constructs
`APITaxonomyClassification` by field name; that runs the same validation as
`parse_classification` on the by-name keyword dict, which fails because
`confidence` and `explanation` accept only their aliases — pydantic raises
`ValidationError` and, with no `except` around the loop body, it
propagates. -/
def classify_rest (oracle : String → OracleResp) (issue : Issue) :
    Except String Issue × List String :=
  let body := issue.body.getD ""
  let comments := issue.comments.map (fun comment => comment.body)
  match analyze_content oracle issue.title body comments with
  | (none, calls) =>
    match parse_classification default_unknown_kwargs with
    | some c =>
      (Except.ok {issue with api_taxonomy_class := some (.single c)}, calls)
    | none => (Except.error "ValidationError", calls)
  | (some classes, calls) =>
    (Except.ok {issue with api_taxonomy_class := some (.list classes)}, calls)

/-- The body of the main classification loop for one issue, paired with the
prompts sent to the oracle for it: the `continue` for an issue already
carrying a verdict, then the `body is None and title is None` test — which
can never fire because `title` is a required string (and whose by-name
constructor would itself raise) — then `classify_rest`. -/
def classify_issue (oracle : String → OracleResp) (issue : Issue) :
    Except String Issue × List String :=
  if issue.api_taxonomy_class.isSome then
    (Except.ok issue, [])
  else
    let title_is_none := false
    if issue.body.isNone && title_is_none then
      match parse_classification default_unknown_kwargs with
      | some c =>
        classify_rest oracle {issue with api_taxonomy_class := some (.single c)}
      | none => (Except.error "ValidationError", [])
    else
      classify_rest oracle issue

/-- A structurally well-formed oracle response carrying a single
classification record with an arbitrary label. -/
def single_class_resp (ct : String) (conf : Rat) (expl : String) : JValue :=
  .jobj [("api_taxonomy_classes", .jarr
    [.jobj [("class_type", .jstr ct),
            ("api_taxonomy_class_confidence", .jnum conf),
            ("api_taxonomy_class_explanation", .jstr expl)]])]

/-- An issue with empty title, absent body and no comments, not yet
classified. -/
def empty_issue : Issue :=
  { number := 10, title := "", created := "2024-01-01", updated := "2024-01-01"
    closed := none, body := none, comments := [] }

/-- An oracle that always answers with a well-formed classification. -/
def answering_oracle : String → OracleResp :=
  fun _ => .ok (single_class_resp "Add Endpoint" (9/10) "adds an endpoint")

/-- An oracle whose every call raises. -/
def failing_oracle : String → OracleResp :=
  fun _ => .raise

/-- A not-yet-classified issue with a title, a body and one comment. -/
def chatty_issue : Issue :=
  { number := 11, title := "t", created := "2024-01-01", updated := "2024-01-01"
    closed := none, body := some "b", comments := [⟨1, "c1"⟩] }

end Classify

/- ## Claims C1, C3 and C4 -/

/-- C1: for an issue with empty title and absent body the claim demands the
`Unknown`/0.0/"No content to analyze" verdict with no oracle invocation, but
the loop invokes the oracle anyway (one prompt is sent) and stores the
oracle's answer: the emptiness test compares both fields against `None` only
(`title`, a required string, never is) and the branch lacks a `continue`. -/
theorem C1_empty_content_oracle_called :
  (Classify.classify_issue Classify.answering_oracle Classify.empty_issue).2 ≠ [] ∧
  (Classify.classify_issue Classify.answering_oracle Classify.empty_issue).1 =
    Except.ok
      {Classify.empty_issue with
        api_taxonomy_class :=
          some (Classify.Verdict.list
            ⟨[⟨"Add Endpoint", 9/10, "adds an endpoint"⟩]⟩)} :=
  ⟨by decide, rfl⟩

/-- C3 counterexample: a response whose label lies outside the closed
taxonomy is claimed to be rejected as unparseable, but it validates, is kept,
and triggers no retry (a single oracle call is made). -/
theorem C3_unknown_label_stored_counterexample :
  ("Recolor Endpoint" ∉ Classify.IoTAPIChangesList) ∧
  Classify.parse_classification_list
      (Classify.single_class_resp "Recolor Endpoint" (4/5) "made up") =
    some ⟨[⟨"Recolor Endpoint", 4/5, "made up"⟩]⟩ ∧
  (Classify.analyze_content
      (fun _ => .ok (Classify.single_class_resp "Recolor Endpoint" (4/5) "made up"))
      "title" "body" []).2.length = 1 :=
  ⟨by decide, rfl, rfl⟩

/-- C3 amended: oracle labels are not validated against the taxonomy.
`class_type` is an unconstrained string (the enumeration is only a schema
hint sent to the oracle), so every structurally well-formed response parses
regardless of its label, the label is stored verbatim, and the retry path is
not triggered: exactly one oracle call is made.  Retries happen only on a
raised call or a response failing the structural shape. -/
theorem C3_labels_not_validated (ct : String) (conf : Rat) (expl : String)
    (title body : String) (comments : List String) :
  Classify.parse_classification_list (Classify.single_class_resp ct conf expl) =
    some ⟨[⟨ct, conf, expl⟩]⟩ ∧
  (Classify.analyze_content (fun _ => .ok (Classify.single_class_resp ct conf expl))
      title body comments).1 = some ⟨[⟨ct, conf, expl⟩]⟩ ∧
  ((Classify.analyze_content (fun _ => .ok (Classify.single_class_resp ct conf expl))
      title body comments).2).length = 1 :=
  ⟨rfl, rfl, rfl⟩

/-- C4: the two-attempt structure does hold (the trace of a double failure
is exactly the full-comments prompt then the emptied-comments prompt), but
the claimed fallback is broken: when both attempts fail, the loop executes
`APITaxonomyClassification(class_type="Unknown", confidence=0.0,
explanation="No content to analyze")`, whose `confidence` and `explanation`
keywords are rejected (those fields accept only their aliases and the model
does not enable population by name), so pydantic raises `ValidationError`
and the error propagates to the caller instead of the `Unknown` verdict
being recorded. -/
theorem C4_double_failure_validation_error :
  (Classify.classify_issue Classify.failing_oracle Classify.chatty_issue).2 =
    [py_replace (Classify.build_prompt_base "t" "b") "{comments}" "c1",
     py_replace (Classify.build_prompt_base "t" "b") "{comments}" ""] ∧
  (Classify.classify_issue Classify.failing_oracle Classify.chatty_issue).1 =
    Except.error "ValidationError" := by
  refine ⟨by decide, rfl⟩

/- ## Relevance Filter (`scripts/prefiltering.py`) -/

namespace PreFilter

/-- The fixed trigger vocabulary (`API_CHANGE_SEARCH_TERMS`). -/
def API_CHANGE_SEARCH_TERMS : List String :=
  ["api", "breaking", "call", "change", "compatibility", "deprecated",
   "deprecation", "documentation", "endpoint", "feature", "function",
   "improvement", "integration", "interface", "method", "migration",
   "modification", "parameter", "refactor", "request", "response", "schema",
   "update", "version"]

/-- The fixed retention threshold (`SEARCH_THRESHOLD`). -/
def SEARCH_THRESHOLD : Nat := 60

/-- A comment of an issue. -/
structure Comment where
  id : Int
  body : String
  created_at : String
  updated_at : String
  user : String
deriving DecidableEq

/-- An issue of the loaded corpus. -/
structure Issue where
  number : Int
  title : String
  body : Option String
  state : String
  created_at : String
  updated_at : String
  closed_at : Option String
  tags : List String := []
  comments : List Comment := []
deriving DecidableEq

/-- The corpus. -/
structure Repository where
  name : String
  issues : List Issue := []
deriving DecidableEq

/-- One kept match record: compared field (`title`, `body` or
`comment_<id>`), the `matched_term` the scorer returned (the full field
text: `extractOne` is called with the joined vocabulary as query and the
field text as sole choice, so the best "choice" is the text itself), and
the score. -/
structure MatchRec where
  type : String
  matched_term : String
  score : Nat
deriving DecidableEq

/-- A retained issue together with its kept matches (the source field is
called `matches`, a reserved word here). -/
structure SearchResult where
  issue : Issue
  matchesList : List MatchRec
deriving DecidableEq

/-- The `perform_fuzzy_match` call
`process.extractOne(" ".join(search_terms), [text], scorer=fuzz.partial_ratio)`:
with exactly one choice and no cutoff, it returns that choice (the text)
and its score.  The external rapidfuzz scorer is the parameter `scorer`
(query first, choice second; scores on the 0–100 scale). -/
def perform_fuzzy_match (scorer : String → String → Nat) (text : String)
    (search_terms : List String) : String × Nat :=
  (text, scorer (py_join " " search_terms) text)

/-- Searches for matches within a single issue and its comments: a record is
appended for title, body and each comment whose returned match text is
truthy (non-empty) and whose score reaches the threshold. -/
def search_single_issue (scorer : String → String → Nat) (issue : Issue)
    (search_terms : List String) (threshold : Nat) : SearchResult :=
  let title_res := perform_fuzzy_match scorer issue.title search_terms
  let body_res := perform_fuzzy_match scorer (issue.body.getD "") search_terms
  let title_matches :=
    if title_res.1 ≠ "" ∧ threshold ≤ title_res.2 then
      [MatchRec.mk "title" title_res.1 title_res.2]
    else []
  let body_matches :=
    if body_res.1 ≠ "" ∧ threshold ≤ body_res.2 then
      [MatchRec.mk "body" body_res.1 body_res.2]
    else []
  let comment_matches := issue.comments.filterMap (fun comment =>
    let comment_res := perform_fuzzy_match scorer comment.body search_terms
    if comment_res.1 ≠ "" ∧ threshold ≤ comment_res.2 then
      some (MatchRec.mk ("comment_" ++ toString comment.id) comment_res.1 comment_res.2)
    else none)
  ⟨issue, title_matches ++ body_matches ++ comment_matches⟩

/-- Python `max(match["score"] for match in matches)`; the generator is never
empty where this is used (results are filtered to non-empty matches). -/
def best_score : List MatchRec → Nat
  | [] => 0
  | m :: rest => rest.foldl (fun acc r => max acc r.score) m.score

/-- Searches across all issues, keeps those with at least one match, and
sorts the result descending by each issue's best match score (Python
`sorted(..., reverse=True)` is a stable descending sort). -/
def search_issues_and_comments (scorer : String → String → Nat)
    (repository : Repository) (search_terms : List String) (threshold : Nat) :
    List SearchResult :=
  List.insertionSort
    (fun a b => best_score b.matchesList ≤ best_score a.matchesList)
    ((repository.issues.map
        (fun issue => search_single_issue scorer issue search_terms threshold)).filter
      (fun result => result.matchesList ≠ []))

/-- The search as `main` runs it: fixed vocabulary and threshold 60. -/
def run_search (scorer : String → String → Nat) (repository : Repository) :
    List SearchResult :=
  search_issues_and_comments scorer repository API_CHANGE_SEARCH_TERMS SEARCH_THRESHOLD

/-- The compared fields of an issue, in comparison order: title, body (empty
string when absent), then each comment body labelled with its id. -/
def spec_fields (issue : Issue) : List (String × String) :=
  ("title", issue.title) :: ("body", issue.body.getD "") ::
    issue.comments.map (fun comment => ("comment_" ++ toString comment.id, comment.body))

/-- Modelled from the spec: one match record per qualifying field, a field
qualifying exactly when its score reaches the threshold. -/
def spec_matches (scorer : String → String → Nat) (issue : Issue) : List MatchRec :=
  (spec_fields issue).filterMap (fun field =>
    if SEARCH_THRESHOLD ≤ scorer (py_join " " API_CHANGE_SEARCH_TERMS) field.2 then
      some (MatchRec.mk field.1 field.2
        (scorer (py_join " " API_CHANGE_SEARCH_TERMS) field.2))
    else none)

/-- A deterministic stand-in for the external scorer, used for concrete
evaluations: thirty points per character of the scored text. -/
def toy_scorer : String → String → Nat :=
  fun _ text => text.data.length * 30

/-- A one-issue corpus whose title scores exactly at the threshold under
`toy_scorer`. -/
def toy_repository : Repository :=
  { name := "home-assistant/core"
    issues := [{ number := 20, title := "ab", body := none, state := "open"
                 created_at := "2024-01-01", updated_at := "2024-01-01"
                 closed_at := none }] }

end PreFilter

/- ## Claim C8 -/

theorem truthy_threshold_list (scorer : String → String → Nat) (q ty text : String)
    (h0 : scorer q "" = 0) :
    (if text ≠ "" ∧ PreFilter.SEARCH_THRESHOLD ≤ scorer q text
     then [PreFilter.MatchRec.mk ty text (scorer q text)] else []) =
    (if PreFilter.SEARCH_THRESHOLD ≤ scorer q text
     then [PreFilter.MatchRec.mk ty text (scorer q text)] else []) := by
  by_cases ht : text = ""
  · subst ht
    rw [h0]
    simp [PreFilter.SEARCH_THRESHOLD]
  · simp [ht]

theorem truthy_threshold_opt (scorer : String → String → Nat) (q ty text : String)
    (h0 : scorer q "" = 0) :
    (if text ≠ "" ∧ PreFilter.SEARCH_THRESHOLD ≤ scorer q text
     then some (PreFilter.MatchRec.mk ty text (scorer q text)) else none) =
    (if PreFilter.SEARCH_THRESHOLD ≤ scorer q text
     then some (PreFilter.MatchRec.mk ty text (scorer q text)) else none) := by
  by_cases ht : text = ""
  · subst ht
    rw [h0]
    simp [PreFilter.SEARCH_THRESHOLD]
  · simp [ht]

theorem spec_matches_expand (scorer : String → String → Nat)
    (issue : PreFilter.Issue) :
    PreFilter.spec_matches scorer issue =
      (if PreFilter.SEARCH_THRESHOLD ≤
          scorer (py_join " " PreFilter.API_CHANGE_SEARCH_TERMS) issue.title
       then [PreFilter.MatchRec.mk "title" issue.title
          (scorer (py_join " " PreFilter.API_CHANGE_SEARCH_TERMS) issue.title)]
       else []) ++
      (if PreFilter.SEARCH_THRESHOLD ≤
          scorer (py_join " " PreFilter.API_CHANGE_SEARCH_TERMS) (issue.body.getD "")
       then [PreFilter.MatchRec.mk "body" (issue.body.getD "")
          (scorer (py_join " " PreFilter.API_CHANGE_SEARCH_TERMS) (issue.body.getD ""))]
       else []) ++
      issue.comments.filterMap (fun comment =>
        if PreFilter.SEARCH_THRESHOLD ≤
            scorer (py_join " " PreFilter.API_CHANGE_SEARCH_TERMS) comment.body
        then some (PreFilter.MatchRec.mk ("comment_" ++ toString comment.id)
          comment.body
          (scorer (py_join " " PreFilter.API_CHANGE_SEARCH_TERMS) comment.body))
        else none) := by
  unfold PreFilter.spec_matches PreFilter.spec_fields
  rw [List.filterMap_cons, List.filterMap_cons, List.filterMap_map]
  by_cases h1 : PreFilter.SEARCH_THRESHOLD ≤
      scorer (py_join " " PreFilter.API_CHANGE_SEARCH_TERMS) issue.title <;>
    by_cases h2 : PreFilter.SEARCH_THRESHOLD ≤
      scorer (py_join " " PreFilter.API_CHANGE_SEARCH_TERMS) (issue.body.getD "") <;>
    simp [h1, h2, Function.comp_def]

theorem search_single_issue_eq (scorer : String → String → Nat)
    (issue : PreFilter.Issue) (h0 : ∀ q, scorer q "" = 0) :
    PreFilter.search_single_issue scorer issue PreFilter.API_CHANGE_SEARCH_TERMS
        PreFilter.SEARCH_THRESHOLD =
      ⟨issue, PreFilter.spec_matches scorer issue⟩ := by
  unfold PreFilter.search_single_issue PreFilter.perform_fuzzy_match
  dsimp only
  rw [spec_matches_expand scorer issue]
  rw [truthy_threshold_list scorer _ "title" issue.title (h0 _),
    truthy_threshold_list scorer _ "body" (issue.body.getD "") (h0 _)]
  have hcomments : ∀ comments : List PreFilter.Comment,
      comments.filterMap (fun comment =>
        if comment.body ≠ "" ∧ PreFilter.SEARCH_THRESHOLD ≤
            scorer (py_join " " PreFilter.API_CHANGE_SEARCH_TERMS) comment.body
        then some (PreFilter.MatchRec.mk ("comment_" ++ toString comment.id)
          comment.body
          (scorer (py_join " " PreFilter.API_CHANGE_SEARCH_TERMS) comment.body))
        else none) =
      comments.filterMap (fun comment =>
        if PreFilter.SEARCH_THRESHOLD ≤
            scorer (py_join " " PreFilter.API_CHANGE_SEARCH_TERMS) comment.body
        then some (PreFilter.MatchRec.mk ("comment_" ++ toString comment.id)
          comment.body
          (scorer (py_join " " PreFilter.API_CHANGE_SEARCH_TERMS) comment.body))
        else none) := by
    intro comments
    induction comments with
    | nil => rfl
    | cons c rest ih =>
      rw [List.filterMap_cons, List.filterMap_cons, ih,
        truthy_threshold_opt scorer _ ("comment_" ++ toString c.id) c.body (h0 _)]
  rw [hcomments]

/-- C8: with a scorer that gives empty text a zero score (as
`fuzz.partial_ratio` does against the non-empty joined vocabulary), the
Relevance Filter retains an issue exactly when some compared field — title,
body, or a comment body — scores at least the fixed threshold 60; every
retained issue carries one match record per qualifying field; and the
retained list is sorted descending by each issue's single highest match
score. -/
theorem C8_relevance_filter (scorer : String → String → Nat)
    (repository : PreFilter.Repository) (h0 : ∀ q, scorer q "" = 0) :
  (∀ issue ∈ repository.issues,
    ((∃ r ∈ PreFilter.run_search scorer repository, r.issue = issue) ↔
      ∃ field ∈ PreFilter.spec_fields issue,
        PreFilter.SEARCH_THRESHOLD ≤
          scorer (py_join " " PreFilter.API_CHANGE_SEARCH_TERMS) field.2)) ∧
  (∀ r ∈ PreFilter.run_search scorer repository,
    r.matchesList = PreFilter.spec_matches scorer r.issue) ∧
  List.Pairwise
    (fun a b => PreFilter.best_score b.matchesList ≤ PreFilter.best_score a.matchesList)
    (PreFilter.run_search scorer repository) := by
  have hperm : ∀ r : PreFilter.SearchResult,
      (r ∈ PreFilter.run_search scorer repository ↔
        r ∈ (repository.issues.map
            (fun issue => PreFilter.search_single_issue scorer issue
              PreFilter.API_CHANGE_SEARCH_TERMS PreFilter.SEARCH_THRESHOLD)).filter
          (fun result => result.matchesList ≠ [])) := by
    intro r
    exact (List.perm_insertionSort _ _).mem_iff
  have hchar : ∀ r : PreFilter.SearchResult,
      r ∈ PreFilter.run_search scorer repository ↔
        ∃ issue ∈ repository.issues,
          r = ⟨issue, PreFilter.spec_matches scorer issue⟩ ∧
          PreFilter.spec_matches scorer issue ≠ [] := by
    intro r
    rw [hperm r]
    constructor
    · intro hr
      obtain ⟨hmem, hne⟩ := List.mem_filter.mp hr
      obtain ⟨issue, hiss, heq⟩ := List.mem_map.mp hmem
      rw [search_single_issue_eq scorer issue h0] at heq
      subst heq
      exact ⟨issue, hiss, rfl, by simpa using of_decide_eq_true hne⟩
    · rintro ⟨issue, hiss, rfl, hne⟩
      apply List.mem_filter.mpr
      refine ⟨?_, by simpa using hne⟩
      exact List.mem_map.mpr ⟨issue, hiss, search_single_issue_eq scorer issue h0⟩
  refine ⟨?_, ?_, ?_⟩
  · intro issue hiss
    constructor
    · rintro ⟨r, hr, hri⟩
      obtain ⟨issue', -, rfl, hne⟩ := (hchar r).mp hr
      obtain rfl : issue' = issue := hri
      obtain ⟨m, hm⟩ := List.exists_mem_of_ne_nil _ hne
      obtain ⟨field, hf, hsome⟩ := List.mem_filterMap.mp hm
      refine ⟨field, hf, ?_⟩
      by_contra hlt
      simp [hlt] at hsome
    · rintro ⟨field, hf, hq⟩
      refine ⟨⟨issue, PreFilter.spec_matches scorer issue⟩, ?_, rfl⟩
      apply (hchar _).mpr
      refine ⟨issue, hiss, rfl, ?_⟩
      have hm : PreFilter.MatchRec.mk field.1 field.2
          (scorer (py_join " " PreFilter.API_CHANGE_SEARCH_TERMS) field.2) ∈
          PreFilter.spec_matches scorer issue :=
        List.mem_filterMap.mpr ⟨field, hf, by rw [if_pos hq]⟩
      exact List.ne_nil_of_mem hm
  · intro r hr
    obtain ⟨issue, -, rfl, -⟩ := (hchar r).mp hr
    rfl
  · haveI : IsTotal PreFilter.SearchResult
        (fun a b => PreFilter.best_score b.matchesList ≤ PreFilter.best_score a.matchesList) :=
      ⟨fun a b => le_total _ _⟩
    haveI : IsTrans PreFilter.SearchResult
        (fun a b => PreFilter.best_score b.matchesList ≤ PreFilter.best_score a.matchesList) :=
      ⟨fun _ _ _ hab hbc => le_trans hbc hab⟩
    exact List.sorted_insertionSort _ _

/-- C8 witness: the sortedness conjunct evaluated on the toy scorer and
one-issue corpus. -/
theorem C8_relevance_filter_witness :
  List.Pairwise
    (fun a b => PreFilter.best_score b.matchesList ≤ PreFilter.best_score a.matchesList)
    (PreFilter.run_search PreFilter.toy_scorer PreFilter.toy_repository) :=
  (C8_relevance_filter PreFilter.toy_scorer PreFilter.toy_repository
    (fun _ => rfl)).2.2

/- ## Annotation Reconciler (`scripts/screening-human-annotation.py`) -/

namespace Annotate

/-- The human decision recorded on an issue; the source model names this
`UserAnn`-style wrapper with a single `is_api_change` boolean. -/
structure UserAnn where
  is_api_change : Bool
deriving DecidableEq

/-- An issue of the screening document.  The source calls the decision field
`author` dash `annotation`; it is abbreviated here. -/
structure Issue where
  number : Int
  title : String
  author_ann : Option UserAnn := none
deriving DecidableEq

/-- The persisted document: the issue list and the progress cursor. -/
structure AnnotationData where
  issues : List Issue
  progress : Nat := 0
deriving DecidableEq

/-- One interactive answer: (a)gree, (d)isagree, (s)kip or (q)uit. -/
inductive Action where
  | agree
  | disagree
  | skip
  | quit
deriving DecidableEq

/-- Sets the decision on the issue at the given index
(`data.issues[index].author_ann = UserAnn(is_api_change=...)`). -/
def set_ann : List Issue → Nat → Bool → List Issue
  | [], _, _ => []
  | issue :: rest, 0, b => {issue with author_ann := some ⟨b⟩} :: rest
  | issue :: rest, Nat.succ k, b => issue :: set_ann rest k b

/-- The annotation loop, driven by the operator's answers `acts` (the answer
given at absolute index `i` is `acts i`): returns the sequence of documents
passed to `save_json`, in order.  `fuel` is the number of remaining loop
iterations (`len(issues) - index`); when it runs out the loop ends and the
document is saved once more with the cursor reset to 0. -/
def ann_loop (acts : Nat → Action) : Nat → List Issue → Nat → List AnnotationData
  | 0, issues, _ => [⟨issues, 0⟩]
  | Nat.succ fuel, issues, index =>
    match acts index with
    | .quit => [⟨issues, index⟩]
    | .skip => ⟨issues, index + 1⟩ :: ann_loop acts fuel issues (index + 1)
    | .agree =>
      ⟨set_ann issues index true, index + 1⟩ ::
        ann_loop acts fuel (set_ann issues index true) (index + 1)
    | .disagree =>
      ⟨set_ann issues index false, index + 1⟩ ::
        ann_loop acts fuel (set_ann issues index false) (index + 1)

/-- The `annotate_issues` command on a loaded document: iterate from the
persisted cursor to the end of the issue list, saving after every answer. -/
def annotate_issues (data : AnnotationData) (acts : Nat → Action) :
    List AnnotationData :=
  ann_loop acts (data.issues.length - data.progress) data.issues data.progress

/-- An operator who always agrees. -/
def always_agree : Nat → Action := fun _ => .agree

/-- A two-issue document with the cursor at the start. -/
def toy_doc : AnnotationData :=
  { issues := [{ number := 1, title := "a" }, { number := 2, title := "b" }] }

end Annotate

/- ## Claim C9 -/

theorem ann_loop_decision_write (acts : Nat → Annotate.Action) :
    ∀ (fuel : Nat) (issues : List Annotate.Issue) (index k : Nat), k < fuel →
      (∀ j, index ≤ j → j ≤ index + k → acts j ≠ .quit) →
      ((Annotate.ann_loop acts fuel issues index).get? k).map
        (fun d => d.progress) = some (index + k + 1) := by
  intro fuel
  induction fuel with
  | zero => intro issues index k hk; exact absurd hk (Nat.not_lt_zero k)
  | succ fuel ih =>
    intro issues index k hk hnq
    have hq : acts index ≠ .quit := hnq index le_rfl (by omega)
    unfold Annotate.ann_loop
    cases ha : acts index with
    | quit => exact absurd ha hq
    | skip =>
      cases k with
      | zero => rfl
      | succ k' =>
        rw [show index + (k' + 1) + 1 = (index + 1) + k' + 1 by omega]
        exact ih issues (index + 1) k' (by omega)
          (fun j hj1 hj2 => hnq j (by omega) (by omega))
    | agree =>
      cases k with
      | zero => rfl
      | succ k' =>
        rw [show index + (k' + 1) + 1 = (index + 1) + k' + 1 by omega]
        exact ih (Annotate.set_ann issues index true) (index + 1) k' (by omega)
          (fun j hj1 hj2 => hnq j (by omega) (by omega))
    | disagree =>
      cases k with
      | zero => rfl
      | succ k' =>
        rw [show index + (k' + 1) + 1 = (index + 1) + k' + 1 by omega]
        exact ih (Annotate.set_ann issues index false) (index + 1) k' (by omega)
          (fun j hj1 hj2 => hnq j (by omega) (by omega))

theorem ann_loop_quit_write (acts : Nat → Annotate.Action) :
    ∀ (fuel : Nat) (issues : List Annotate.Issue) (index r : Nat), r < fuel →
      acts (index + r) = .quit →
      (∀ j, index ≤ j → j < index + r → acts j ≠ .quit) →
      (Annotate.ann_loop acts fuel issues index).length = r + 1 ∧
      ((Annotate.ann_loop acts fuel issues index).get? r).map
        (fun d => d.progress) = some (index + r) := by
  intro fuel
  induction fuel with
  | zero => intro issues index r hr; exact absurd hr (Nat.not_lt_zero r)
  | succ fuel ih =>
    intro issues index r hr hq hnq
    unfold Annotate.ann_loop
    cases r with
    | zero =>
      rw [show acts index = .quit from (by simpa using hq)]
      exact ⟨rfl, rfl⟩
    | succ r' =>
      have hq' : acts ((index + 1) + r') = .quit := by
        rw [show (index + 1) + r' = index + (r' + 1) by omega]
        exact hq
      have hnq' : ∀ j, index + 1 ≤ j → j < (index + 1) + r' → acts j ≠ .quit :=
        fun j hj1 hj2 => hnq j (by omega) (by omega)
      have hstep : acts index ≠ .quit := hnq index le_rfl (by omega)
      cases ha : acts index with
      | quit => exact absurd ha hstep
      | skip =>
        obtain ⟨hlen, hget⟩ := ih issues (index + 1) r' (by omega) hq' hnq'
        refine ⟨by simpa using hlen, ?_⟩
        rw [show index + (r' + 1) = (index + 1) + r' by omega]
        simpa using hget
      | agree =>
        obtain ⟨hlen, hget⟩ :=
          ih (Annotate.set_ann issues index true) (index + 1) r' (by omega) hq' hnq'
        refine ⟨by simpa using hlen, ?_⟩
        rw [show index + (r' + 1) = (index + 1) + r' by omega]
        simpa using hget
      | disagree =>
        obtain ⟨hlen, hget⟩ :=
          ih (Annotate.set_ann issues index false) (index + 1) r' (by omega) hq' hnq'
        refine ⟨by simpa using hlen, ?_⟩
        rw [show index + (r' + 1) = (index + 1) + r' by omega]
        simpa using hget

theorem ann_loop_completion (acts : Nat → Annotate.Action) :
    ∀ (fuel : Nat) (issues : List Annotate.Issue) (index : Nat),
      (∀ j, index ≤ j → j < index + fuel → acts j ≠ .quit) →
      (Annotate.ann_loop acts fuel issues index).length = fuel + 1 ∧
      ((Annotate.ann_loop acts fuel issues index).get? fuel).map
        (fun d => d.progress) = some 0 := by
  intro fuel
  induction fuel with
  | zero => intro issues index hnq; exact ⟨rfl, rfl⟩
  | succ fuel ih =>
    intro issues index hnq
    have hstep : acts index ≠ .quit := hnq index le_rfl (by omega)
    have hnq' : ∀ j, index + 1 ≤ j → j < (index + 1) + fuel → acts j ≠ .quit :=
      fun j hj1 hj2 => hnq j (by omega) (by omega)
    unfold Annotate.ann_loop
    cases ha : acts index with
    | quit => exact absurd ha hstep
    | skip =>
      obtain ⟨hlen, hget⟩ := ih issues (index + 1) hnq'
      exact ⟨by simpa using hlen, by simpa using hget⟩
    | agree =>
      obtain ⟨hlen, hget⟩ := ih (Annotate.set_ann issues index true) (index + 1) hnq'
      exact ⟨by simpa using hlen, by simpa using hget⟩
    | disagree =>
      obtain ⟨hlen, hget⟩ := ih (Annotate.set_ann issues index false) (index + 1) hnq'
      exact ⟨by simpa using hlen, by simpa using hget⟩

/-- C9: in the write trace of the annotation loop, (1) every
agree/disagree/skip answer at absolute index `k` immediately produces a
persisted document whose cursor is `k + 1`, (2) a quit at index `q` produces
one final write with the cursor still at `q` — the not-yet-answered index —
and the trace stops there, and (3) a run that answers every remaining item
without quitting ends with one extra write whose cursor is reset to 0. -/
theorem C9_cursor_persistence (data : Annotate.AnnotationData)
    (acts : Nat → Annotate.Action) :
  (∀ k, data.progress ≤ k → k < data.issues.length →
    (∀ j, data.progress ≤ j → j ≤ k → acts j ≠ Annotate.Action.quit) →
    ((Annotate.annotate_issues data acts).get? (k - data.progress)).map
      (fun d => d.progress) = some (k + 1)) ∧
  (∀ q, data.progress ≤ q → q < data.issues.length →
    acts q = Annotate.Action.quit →
    (∀ j, data.progress ≤ j → j < q → acts j ≠ Annotate.Action.quit) →
    (Annotate.annotate_issues data acts).length = (q - data.progress) + 1 ∧
    ((Annotate.annotate_issues data acts).get? (q - data.progress)).map
      (fun d => d.progress) = some q) ∧
  ((∀ j, data.progress ≤ j → j < data.issues.length →
      acts j ≠ Annotate.Action.quit) →
    ((Annotate.annotate_issues data acts).get?
      (data.issues.length - data.progress)).map (fun d => d.progress) = some 0) := by
  refine ⟨?_, ?_, ?_⟩
  · intro k hpk hkl hnq
    have h := ann_loop_decision_write acts (data.issues.length - data.progress)
      data.issues data.progress (k - data.progress) (by omega)
      (fun j hj1 hj2 => hnq j hj1 (by omega))
    rw [show data.progress + (k - data.progress) + 1 = k + 1 by omega] at h
    exact h
  · intro q hpq hql hq hnq
    have h := ann_loop_quit_write acts (data.issues.length - data.progress)
      data.issues data.progress (q - data.progress) (by omega)
      (by rw [show data.progress + (q - data.progress) = q by omega]; exact hq)
      (fun j hj1 hj2 => hnq j hj1 (by omega))
    rw [show data.progress + (q - data.progress) = q by omega] at h
    exact h
  · intro hnq
    exact (ann_loop_completion acts (data.issues.length - data.progress)
      data.issues data.progress (fun j hj1 hj2 => hnq j hj1 (by omega))).2

/-- C9 witness: the completion conjunct evaluated on the two-issue document
with an operator who always agrees. -/
theorem C9_cursor_persistence_witness :
  ((Annotate.annotate_issues Annotate.toy_doc Annotate.always_agree).get?
    (Annotate.toy_doc.issues.length - Annotate.toy_doc.progress)).map
      (fun d => d.progress) = some 0 :=
  (C9_cursor_persistence Annotate.toy_doc Annotate.always_agree).2.2
    (fun _ _ _ h => Annotate.Action.noConfusion h)
